import Mathlib

/-
Shallow embedding of `probe-rs/src/architecture/arm/communication_interface.rs`.

The stateful interface core (`ArmCommunicationInterface`) is embedded as a
record `Iface` threaded explicitly through each operation.  Every operation
returns its `Except`-style result, the updated interface state, and the list
of probe/sequence events it issued, in issue order.  External collaborators
(the debug probe transport, the chip-specific `ArmDebugSequence` hooks, the AP
enumeration helpers, the memory interface constructors and the ROM-table
parser) are modelled as a deterministic oracle `Env`.

The register bitfield types (`SelectV1`, `SelectV3`, `Select1`, `Ctrl`,
`DPIDR`) and the `DpAccess` read/write glue live in the `dp` module of the
repository, which is not part of the provided sources; those definitions are
modelled from the specification and are marked `Modelled from the spec:` in
their doc comments.  Everything else is translated directly from the source
file.
-/

set_option autoImplicit false

namespace ProbeRs

/-- Identifies a debug port.  Modelled from the spec: variants are a `Default`
singleton and a `Multidrop` value carrying a 32-bit target id and a 4-bit
instance; equality is exact, bit for bit. -/
inductive DpAddress where
  | Default
  | Multidrop (targetId : Nat) (instanceId : Nat)
deriving DecidableEq

/-- Identifies an access port.  Modelled from the spec: `V1` is a single 8-bit
port number (ADIv5); `V2` is a 48-bit base address within the DP memory space
(ADIv6), where `none` means the AP at base 0. -/
inductive ApAddress where
  | V1 (port : Nat)
  | V2 (base : Option Nat)
deriving DecidableEq

/-- A pair of a debug-port address and an access-port address. -/
structure FullyQualifiedApAddress where
  dp : DpAddress
  ap : ApAddress
deriving DecidableEq

/-- A DP register address: an optional 4-bit bank and a 4-bit address
(0x0, 0x4, 0x8 or 0xC). -/
structure DpRegisterAddress where
  bank : Option Nat
  address : Nat
deriving DecidableEq

/-- Modelled from the spec: the `SelectV1` register (DPv1 shape of the select
cache), a 32-bit word with sub-fields `dp_bank_sel` (4 bits), `ap_sel`
(8 bits) and `ap_bank_sel` (4 bits).  The word is represented by its fields;
setters truncate to the field width like the source bitfield setters. -/
structure SelectV1 where
  dp_bank_sel : Nat
  ap_sel : Nat
  ap_bank_sel : Nat
deriving DecidableEq

def SelectV1.set_dp_bank_sel (s : SelectV1) (v : Nat) : SelectV1 :=
  { s with dp_bank_sel := v % 16 }

def SelectV1.set_ap_sel (s : SelectV1) (v : Nat) : SelectV1 :=
  { s with ap_sel := v % 256 }

def SelectV1.set_ap_bank_sel (s : SelectV1) (v : Nat) : SelectV1 :=
  { s with ap_bank_sel := v % 16 }

/-- Modelled from the spec: the DPv3 `SELECT` register, holding a 4-bit
`dp_bank_sel` and an `addr` field; per the spec, `SELECT.addr` holds bits
4..36 of the combined AP address, i.e. the full 32-bit value passed by the
caller (`(address >> 4) & 0xFFFF_FFFF`). -/
structure SelectV3 where
  dp_bank_sel : Nat
  addr : Nat
deriving DecidableEq

def SelectV3.set_dp_bank_sel (s : SelectV3) (v : Nat) : SelectV3 :=
  { s with dp_bank_sel := v % 16 }

def SelectV3.set_addr (s : SelectV3) (v : Nat) : SelectV3 :=
  { s with addr := v % 2 ^ 32 }

/-- Modelled from the spec: the DPv3 `SELECT1` register.  The source caller
passes `(address >> 32) as u32`; the spec states the resulting `SELECT1.addr`
holds bits 36..48 of the combined address, and its S4 scenario gives
`SELECT1.addr = 0x1000` for combined address `0x1_0000_0000_0000`.  Both are
reproduced by a setter that stores the passed 32-bit value shifted right by
four bits. -/
structure Select1 where
  addr : Nat
deriving DecidableEq

def Select1.set_addr (_s : Select1) (v : Nat) : Select1 :=
  { addr := (v % 2 ^ 32) >>> 4 }

/-- The DP version recorded from the DPIDR register. -/
inductive DebugPortVersion where
  | DPv0
  | DPv1
  | DPv2
  | DPv3
  | Unsupported (b : Nat)
deriving DecidableEq

/-- Modelled from the spec: the DPIDR version field decodes to DPv0..DPv3,
any other value being `Unsupported` carrying the raw field value. -/
def versionFromDpidr (raw : Nat) : DebugPortVersion :=
  match (raw >>> 12) % 16 with
  | 0 => .DPv0
  | 1 => .DPv1
  | 2 => .DPv2
  | 3 => .DPv3
  | b => .Unsupported b

/-- Modelled from the spec: the `orun_detect` bit of the CTRL/STAT register,
represented as the low bit of the raw 32-bit value. -/
def ctrl_orun_detect (c : Nat) : Bool :=
  c % 2 == 1

/-- Modelled from the spec: setting the `orun_detect` bit of CTRL/STAT. -/
def ctrl_set_orun_detect (c : Nat) (b : Bool) : Nat :=
  2 * (c / 2) + (if b then 1 else 0)

/-- Tagged shadow of the DP SELECT register(s): one word on DPv1, two words
(SELECT, SELECT1) on DPv3. -/
inductive SelectCache where
  | DPv1 (s : SelectV1)
  | DPv3 (s : SelectV3) (s1 : Select1)
deriving DecidableEq

def SelectCache.dp_bank_sel : SelectCache → Nat
  | .DPv1 s => s.dp_bank_sel
  | .DPv3 s _ => s.dp_bank_sel

def SelectCache.set_dp_bank_sel : SelectCache → Nat → SelectCache
  | .DPv1 s, bank => .DPv1 (s.set_dp_bank_sel bank)
  | .DPv3 s s1, bank => .DPv3 (s.set_dp_bank_sel bank) s1

/-- Cached per-DP state: recorded version plus the select-register shadow. -/
structure DpState where
  debug_port_version : DebugPortVersion
  current_select : SelectCache
deriving DecidableEq

/-- `DpState::new()`: version `Unsupported(0xFF)`, select cache all-zero in
DPv1 shape. -/
def DpState.new : DpState :=
  { debug_port_version := .Unsupported 0xFF
    current_select := .DPv1 ⟨0, 0, 0⟩ }

/-- Error taxonomy of this layer.  `panicErr` stands for the `unreachable!` /
`expect` / `assert!` paths, which are fatal programming errors rather than
recoverable `ArmError`s. -/
inductive Err where
  | setup
  | connect
  | start
  | probe
  | mem
  | base
  | parse
  | enum
  | panicErr
deriving DecidableEq

/-- The DP register being accessed through the `DpAccess` glue. -/
inductive DpRegRead where
  | dpidr
  | ctrl
deriving DecidableEq

/-- Name of a DP register written through the `DpAccess` glue. -/
inductive DpRegName where
  | ctrl
  | select
  | select1
deriving DecidableEq

/-- A DP register write with its typed payload. -/
inductive DpRegWrite where
  | ctrl (c : Nat)
  | select_v1 (s : SelectV1)
  | select_v3 (s : SelectV3)
  | select1 (s1 : Select1)
deriving DecidableEq

def DpRegWrite.reg : DpRegWrite → DpRegName
  | .ctrl _ => .ctrl
  | .select_v1 _ => .select
  | .select_v3 _ => .select
  | .select1 _ => .select1

/-- A raw wire register address: a DP register address or the low byte of an
AP register address. -/
inductive RegisterAddress where
  | dp (a : DpRegisterAddress)
  | ap (a : Nat)
deriving DecidableEq

/-- Modelled from the spec: a JEP106 manufacturer code (continuation count
plus identity). -/
structure JEP106Code where
  cc : Nat
  id : Nat
deriving DecidableEq

/-- Chip identity produced by ROM-table discovery. -/
structure ArmChipInfo where
  manufacturer : JEP106Code
  part : Nat
deriving DecidableEq

/-- Modelled from the spec: the result of `Component::try_parse` as far as
ROM-table discovery inspects it — a Class-1 ROM table whose peripheral id
carries an optional JEP106 code and a part number, or anything else. -/
inductive Component where
  | class1RomTable (jep106 : Option JEP106Code) (part : Nat)
  | other
deriving DecidableEq

/-- One observable interaction with the probe or the debug-sequence strategy,
in issue order. -/
inductive Event where
  | rawFlush
  | dpSetup (dp : DpAddress)
  | dpConnect (dp : DpAddress)
  | dpStart (dp : DpAddress)
  | dpStop (dp : DpAddress)
  | readDp (dp : DpAddress) (r : DpRegRead)
  | writeDp (dp : DpAddress) (w : DpRegWrite)
  | rawRead (a : RegisterAddress)
  | rawWrite (a : RegisterAddress) (v : Nat)
deriving DecidableEq

/-- Deterministic oracle for everything outside the interface core: the
probe transport, the four `ArmDebugSequence` hooks, AP enumeration, memory
interface construction, and the ROM-table parser. -/
structure Env where
  setup : DpAddress → Bool
  connect : DpAddress → Bool
  start : DpAddress → Bool
  stop : DpAddress → Bool
  flushOk : Bool
  readDp : DpAddress → DpRegRead → Option Nat
  writeDpOk : DpAddress → DpRegName → Bool
  rawRead : RegisterAddress → Option Nat
  rawWriteOk : RegisterAddress → Bool
  validAccessPortsV1 : DpAddress → List FullyQualifiedApAddress
  enumerateAccessPortsV2 : DpAddress → Except Err (List FullyQualifiedApAddress)
  memIfaceV1Ok : FullyQualifiedApAddress → Bool
  memIfaceV2Ok : FullyQualifiedApAddress → Bool
  baseAddress : FullyQualifiedApAddress → Except Err Nat
  tryParse : FullyQualifiedApAddress → Nat → Except Err Component

/-- The interface core state (`ArmCommunicationInterface`): probe present or
taken, currently selected DP, per-DP state map (association list standing for
the `HashMap`), and the overrun-detect configuration flag. -/
structure Iface where
  probe : Bool
  current_dp : Option DpAddress
  dps : List (DpAddress × DpState)
  use_overrun_detect : Bool
deriving DecidableEq

/-- `ArmCommunicationInterface::create`: fresh interface, no current DP, no
DP states, probe owned.  No I/O is performed. -/
def create (use_overrun_detect : Bool) : Iface :=
  { probe := true
    current_dp := none
    dps := []
    use_overrun_detect := use_overrun_detect }

/-- `HashMap::get` on the DP-state map. -/
def lookupDp : List (DpAddress × DpState) → DpAddress → Option DpState
  | [], _ => none
  | (k, v) :: rest, dp => if k = dp then some v else lookupDp rest dp

/-- `HashMap` insertion / mutation through `get_mut` at a key. -/
def updateDp : List (DpAddress × DpState) → DpAddress → DpState → List (DpAddress × DpState)
  | [], dp, st => [(dp, st)]
  | (k, v) :: rest, dp, st =>
    if k = dp then (dp, st) :: rest else (k, v) :: updateDp rest dp st

/-- `RawDapAccess::raw_flush` on the probe. -/
def raw_flush (env : Env) : Except Err Unit × List Event :=
  ((if env.flushOk then .ok () else .error .probe), [.rawFlush])

/-- `ArmDebugSequence::debug_port_setup` hook (external). -/
def debug_port_setup (env : Env) (dp : DpAddress) : Except Err Unit × List Event :=
  ((if env.setup dp then .ok () else .error .setup), [.dpSetup dp])

/-- `ArmDebugSequence::debug_port_connect` hook (external). -/
def debug_port_connect (env : Env) (dp : DpAddress) : Except Err Unit × List Event :=
  ((if env.connect dp then .ok () else .error .connect), [.dpConnect dp])

/-- `ArmDebugSequence::debug_port_start` hook (external). -/
def debug_port_start (env : Env) (dp : DpAddress) : Except Err Unit × List Event :=
  ((if env.start dp then .ok () else .error .start), [.dpStart dp])

/-- Modelled from the spec: the `DpAccess::read_dp_register` glue (not in the
provided sources) reads the named register from the probe.  The bank
selection it performs for CTRL (bank 0, address 0x4) and DPIDR (address 0x0)
is a no-op against the fresh all-zero select cache present at its only call
sites, so it is modelled as the raw read itself. -/
def read_dp_register (env : Env) (dp : DpAddress) (r : DpRegRead) :
    Except Err Nat × List Event :=
  ((match env.readDp dp r with
    | some v => .ok v
    | none => .error .probe), [.readDp dp r])

/-- Modelled from the spec: the `DpAccess::write_dp_register` glue (not in
the provided sources) issues the raw probe write for the named register.
SELECT lives at the unbanked address 0x8, so no bank traffic precedes it. -/
def write_dp_register (env : Env) (dp : DpAddress) (w : DpRegWrite) :
    Except Err Unit × List Event :=
  ((if env.writeDpOk dp w.reg then .ok () else .error .probe), [.writeDp dp w])

/-- `RawDapAccess::raw_read_register` on the probe. -/
def raw_read_register (env : Env) (a : RegisterAddress) :
    Except Err Nat × List Event :=
  ((match env.rawRead a with
    | some v => .ok v
    | none => .error .probe), [.rawRead a])

/-- `RawDapAccess::raw_write_register` on the probe. -/
def raw_write_register (env : Env) (a : RegisterAddress) (v : Nat) :
    Except Err Unit × List Event :=
  ((if env.rawWriteOk a then .ok () else .error .probe), [.rawWrite a v])

/-- First phase of `select_dp`: if the requested DP is not current, flush the
probe, then run `debug_port_setup` (no current DP) or `debug_port_connect`
with a single fallback to `debug_port_setup` on failure, and set
`current_dp`.  The `Bool` is the `switched_dp` flag. -/
def select_dp_switch (env : Env) (i : Iface) (dp : DpAddress) :
    Except Err Unit × Iface × List Event × Bool :=
  if i.current_dp = some dp then (.ok (), i, [], false)
  else
    match raw_flush env with
    | (.error e, ev) => (.error e, i, ev, true)
    | (.ok _, ev) =>
      match i.current_dp with
      | none =>
        match debug_port_setup env dp with
        | (.error e, ev2) => (.error e, i, ev ++ ev2, true)
        | (.ok _, ev2) => (.ok (), { i with current_dp := some dp }, ev ++ ev2, true)
      | some _ =>
        match debug_port_connect env dp with
        | (.ok _, ev2) => (.ok (), { i with current_dp := some dp }, ev ++ ev2, true)
        | (.error _, ev2) =>
          match debug_port_setup env dp with
          | (.error e, ev3) => (.error e, i, ev ++ ev2 ++ ev3, true)
          | (.ok _, ev3) =>
            (.ok (), { i with current_dp := some dp }, ev ++ ev2 ++ ev3, true)

/-- Second phase of `select_dp`: lazy per-DP initialisation.  On a vacant
map entry, insert a fresh `DpState`, run `debug_port_start`, reconcile the
CTRL/STAT `orun_detect` bit with the configuration, read DPIDR, record the
version and retag the select cache to DPv3 shape when the version is DPv3.
On an occupied entry, rerun `debug_port_start` only if the DP was switched. -/
def select_dp_init (env : Env) (i : Iface) (dp : DpAddress) (switched : Bool) :
    Except Err DpState × Iface × List Event :=
  match lookupDp i.dps dp with
  | none =>
    let i1 : Iface := { i with dps := updateDp i.dps dp DpState.new }
    match debug_port_start env dp with
    | (.error e, ev) => (.error e, i1, ev)
    | (.ok _, ev) =>
      match read_dp_register env dp .ctrl with
      | (.error e, ev2) => (.error e, i1, ev ++ ev2)
      | (.ok ctrl, ev2) =>
        let (wres, ev3) :=
          if ctrl_orun_detect ctrl ≠ i1.use_overrun_detect then
            write_dp_register env dp (.ctrl (ctrl_set_orun_detect ctrl i1.use_overrun_detect))
          else (.ok (), [])
        match wres with
        | .error e => (.error e, i1, ev ++ ev2 ++ ev3)
        | .ok _ =>
          match read_dp_register env dp .dpidr with
          | (.error e, ev4) => (.error e, i1, ev ++ ev2 ++ ev3 ++ ev4)
          | (.ok raw, ev4) =>
            match lookupDp i1.dps dp with
            | none => (.error .panicErr, i1, ev ++ ev2 ++ ev3 ++ ev4)
            | some st =>
              let version := versionFromDpidr raw
              let st' : DpState :=
                { st with
                  debug_port_version := version
                  current_select :=
                    if version = .DPv3 then .DPv3 ⟨0, 0⟩ ⟨0⟩ else st.current_select }
              let i2 : Iface := { i1 with dps := updateDp i1.dps dp st' }
              (.ok st', i2, ev ++ ev2 ++ ev3 ++ ev4)
  | some _ =>
    if switched then
      match debug_port_start env dp with
      | (.error e, ev) => (.error e, i, ev)
      | (.ok _, ev) =>
        match lookupDp i.dps dp with
        | some st => (.ok st, i, ev)
        | none => (.error .panicErr, i, ev)
    else
      match lookupDp i.dps dp with
      | some st => (.ok st, i, [])
      | none => (.error .panicErr, i, [])

/-- `ArmCommunicationInterface::select_dp`. -/
def select_dp (env : Env) (i : Iface) (dp : DpAddress) :
    Except Err DpState × Iface × List Event :=
  match select_dp_switch env i dp with
  | (.error e, i1, ev, _) => (.error e, i1, ev)
  | (.ok _, i1, ev, switched) =>
    match select_dp_init env i1 dp switched with
    | (r, i2, ev2) => (r, i2, ev ++ ev2)

/-- `ArmCommunicationInterface::select_dp_and_dp_bank`. -/
def select_dp_and_dp_bank (env : Env) (i : Iface) (dp : DpAddress)
    (a : DpRegisterAddress) : Except Err Unit × Iface × List Event :=
  match select_dp env i dp with
  | (.error e, i1, ev) => (.error e, i1, ev)
  | (.ok dp_state, i1, ev) =>
    if a.address ≠ 0 ∧ a.address ≠ 4 then (.ok (), i1, ev)
    else
      let bank := a.bank.getD 0
      if bank = dp_state.current_select.dp_bank_sel then (.ok (), i1, ev)
      else
        let newSel := dp_state.current_select.set_dp_bank_sel bank
        let st' : DpState := { dp_state with current_select := newSel }
        let i2 : Iface := { i1 with dps := updateDp i1.dps dp st' }
        match newSel with
        | .DPv1 sel =>
          match write_dp_register env dp (.select_v1 sel) with
          | (wres, ev2) => (wres, i2, ev ++ ev2)
        | .DPv3 sel _ =>
          match write_dp_register env dp (.select_v3 sel) with
          | (wres, ev2) => (wres, i2, ev ++ ev2)

/-- The new select-cache value computed by `select_ap_and_ap_bank` for a
given AP address variant against a given cache shape; `none` is the
`unreachable!` variant mismatch. -/
def computeNewSelect : ApAddress → SelectCache → Nat → Option SelectCache
  | .V1 port, .DPv1 s, a =>
    let a8 := a % 256
    let ap_bank := a8 / 16
    some (.DPv1 ((s.set_ap_sel port).set_ap_bank_sel ap_bank))
  | .V2 base, .DPv3 s s1, a =>
    let address := (base.getD 0 + a) % 2 ^ 64
    some (.DPv3 (s.set_addr ((address >>> 4) % 2 ^ 32))
                (s1.set_addr ((address >>> 32) % 2 ^ 32)))
  | _, _, _ => none

/-- `ArmCommunicationInterface::select_ap_and_ap_bank`.  The cache is
mutated first; if it changed, SELECT is written (DPv1), or SELECT followed by
SELECT1 (DPv3). -/
def select_ap_and_ap_bank (env : Env) (i : Iface) (fqa : FullyQualifiedApAddress)
    (ap_register_address : Nat) : Except Err Unit × Iface × List Event :=
  match select_dp env i fqa.dp with
  | (.error e, i1, ev) => (.error e, i1, ev)
  | (.ok dp_state, i1, ev) =>
    let previous_select := dp_state.current_select
    match computeNewSelect fqa.ap dp_state.current_select ap_register_address with
    | none => (.error .panicErr, i1, ev)
    | some newSel =>
      let st' : DpState := { dp_state with current_select := newSel }
      let i2 : Iface := { i1 with dps := updateDp i1.dps fqa.dp st' }
      if previous_select = newSel then (.ok (), i2, ev)
      else
        match newSel with
        | .DPv1 sel =>
          match write_dp_register env fqa.dp (.select_v1 sel) with
          | (wres, ev2) => (wres, i2, ev ++ ev2)
        | .DPv3 sel sel1 =>
          match write_dp_register env fqa.dp (.select_v3 sel) with
          | (.error e, ev2) => (.error e, i2, ev ++ ev2)
          | (.ok _, ev2) =>
            match write_dp_register env fqa.dp (.select1 sel1) with
            | (wres, ev3) => (wres, i2, ev ++ ev2 ++ ev3)

/-- `DapAccess::read_raw_dp_register`. -/
def read_raw_dp_register (env : Env) (i : Iface) (dp : DpAddress)
    (a : DpRegisterAddress) : Except Err Nat × Iface × List Event :=
  match select_dp_and_dp_bank env i dp a with
  | (.error e, i1, ev) => (.error e, i1, ev)
  | (.ok _, i1, ev) =>
    match raw_read_register env (.dp a) with
    | (r, ev2) => (r, i1, ev ++ ev2)

/-- `DapAccess::write_raw_dp_register`. -/
def write_raw_dp_register (env : Env) (i : Iface) (dp : DpAddress)
    (a : DpRegisterAddress) (v : Nat) : Except Err Unit × Iface × List Event :=
  match select_dp_and_dp_bank env i dp a with
  | (.error e, i1, ev) => (.error e, i1, ev)
  | (.ok _, i1, ev) =>
    match raw_write_register env (.dp a) v with
    | (r, ev2) => (r, i1, ev ++ ev2)

/-- `DapAccess::read_raw_ap_register`: AP bank selection, then the raw read
at the low 8 bits of the register address. -/
def read_raw_ap_register (env : Env) (i : Iface) (fqa : FullyQualifiedApAddress)
    (address : Nat) : Except Err Nat × Iface × List Event :=
  match select_ap_and_ap_bank env i fqa address with
  | (.error e, i1, ev) => (.error e, i1, ev)
  | (.ok _, i1, ev) =>
    match raw_read_register env (.ap (address % 256)) with
    | (r, ev2) => (r, i1, ev ++ ev2)

/-- `DapAccess::write_raw_ap_register`. -/
def write_raw_ap_register (env : Env) (i : Iface) (fqa : FullyQualifiedApAddress)
    (address : Nat) (v : Nat) : Except Err Unit × Iface × List Event :=
  match select_ap_and_ap_bank env i fqa address with
  | (.error e, i1, ev) => (.error e, i1, ev)
  | (.ok _, i1, ev) =>
    match raw_write_register env (.ap (address % 256)) v with
    | (r, ev2) => (r, i1, ev ++ ev2)

/-- The per-DP part of `disconnect`'s loop over the non-current DPs: try
`debug_port_connect`, and only on success `debug_port_stop`; failures are
logged and skipped. -/
def stopOtherDps (env : Env) : List DpAddress → List Event
  | [] => []
  | d :: rest =>
    ([.dpConnect d] ++ (if env.connect d then [.dpStop d] else []))
      ++ stopOtherDps env rest

/-- `ArmCommunicationInterface::disconnect`: take `current_dp`, stop it
without reconnecting (failure ignored), then connect-and-stop every other DP
with cached state (a failed connect skips that DP's stop), finally attempt
`raw_flush` ignoring failure.  Infallible by construction. -/
def disconnect (env : Env) (i : Iface) : Iface × List Event :=
  match i.current_dp with
  | some current =>
    ({ i with current_dp := none },
      [.dpStop current]
        ++ stopOtherDps env (((i.dps.map Prod.fst).filter (fun d => d ≠ current)))
        ++ [.rawFlush])
  | none => (i, [.rawFlush])

/-- `Drop for ArmCommunicationInterface`: if the probe is still owned, run
`disconnect` and drop the probe so the sequence cannot run twice. -/
def dropIface (env : Env) (i : Iface) : Iface × List Event :=
  if i.probe then
    match disconnect env i with
    | (i1, ev) => ({ i1 with probe := false }, ev)
  else (i, [])

/-- `ArmCommunicationInterface::close`: run `disconnect`, take the probe out
and return it (probe absence models the returned probe). -/
def close (env : Env) (i : Iface) : Iface × List Event :=
  match disconnect env i with
  | (i1, ev) => ({ i1 with probe := false }, ev)

/-- `ArmDebugInterface::reinitialize`: remember the current DP, disconnect,
assert that `current_dp` is now absent, and reselect the remembered DP. -/
def reinitialize (env : Env) (i : Iface) : Except Err Unit × Iface × List Event :=
  let current_dp := i.current_dp
  match disconnect env i with
  | (i1, ev) =>
    if i1.current_dp ≠ none then (.error .panicErr, i1, ev)
    else
      match current_dp with
      | some dp =>
        match select_dp env i1 dp with
        | (.error e, i2, ev2) => (.error e, i2, ev ++ ev2)
        | (.ok _, i2, ev2) => (.ok (), i2, ev ++ ev2)
      | none => (.ok (), i1, ev)

/-- `ArmDebugInterface::select_debug_port`. -/
def select_debug_port (env : Env) (i : Iface) (dp : DpAddress) :
    Except Err Unit × Iface × List Event :=
  match select_dp env i dp with
  | (.error e, i1, ev) => (.error e, i1, ev)
  | (.ok _, i1, ev) => (.ok (), i1, ev)

/-- `ArmDebugInterface::access_ports`: dispatch on the recorded DP version;
ADIv5 walks AP indices probing IDR, ADIv6 enumerates via ROM tables (both
external helpers, oracles here); the `Unsupported` arm is `unreachable!`. -/
def access_ports (env : Env) (i : Iface) (dp : DpAddress) :
    Except Err (List FullyQualifiedApAddress) × Iface × List Event :=
  match select_dp env i dp with
  | (.error e, i1, ev) => (.error e, i1, ev)
  | (.ok st, i1, ev) =>
    match st.debug_port_version with
    | .DPv0 => (.ok (env.validAccessPortsV1 dp), i1, ev)
    | .DPv1 => (.ok (env.validAccessPortsV1 dp), i1, ev)
    | .DPv2 => (.ok (env.validAccessPortsV1 dp), i1, ev)
    | .DPv3 =>
      match env.enumerateAccessPortsV2 dp with
      | .ok aps => (.ok aps, i1, ev)
      | .error e => (.error e, i1, ev)
    | .Unsupported _ => (.error .panicErr, i1, ev)

/-- `ArmDebugInterface::memory_interface`: dispatch on the AP address
variant to the external memory-interface constructors (oracles; their probe
I/O is outside this core). -/
def memory_interface (env : Env) (fqa : FullyQualifiedApAddress) : Except Err Unit :=
  match fqa.ap with
  | .V1 _ => if env.memIfaceV1Ok fqa then .ok () else .error .mem
  | .V2 _ => if env.memIfaceV2Ok fqa then .ok () else .error .mem

/-- The loop body of `read_chip_info_from_rom_table` over the AP list: a
failed `memory_interface` is skipped (`if let Ok`), while `base_address` and
`Component::try_parse` failures propagate (`?`); a Class-1 ROM table with a
JEP106 code returns the chip info, anything else continues. -/
def read_chip_info_loop (env : Env) :
    List FullyQualifiedApAddress → Except Err (Option ArmChipInfo)
  | [] => .ok none
  | fqa :: rest =>
    match memory_interface env fqa with
    | .error _ => read_chip_info_loop env rest
    | .ok _ =>
      match env.baseAddress fqa with
      | .error e => .error e
      | .ok base =>
        match env.tryParse fqa base with
        | .error e => .error e
        | .ok (.class1RomTable (some jep) part) => .ok (some ⟨jep, part⟩)
        | .ok _ => read_chip_info_loop env rest

/-- `read_chip_info_from_rom_table`. -/
def read_chip_info_from_rom_table (env : Env) (i : Iface) (dp : DpAddress) :
    Except Err (Option ArmChipInfo) × Iface × List Event :=
  match access_ports env i dp with
  | (.error e, i1, ev) => (.error e, i1, ev)
  | (.ok aps, i1, ev) => (read_chip_info_loop env aps, i1, ev)

/-- The SELECT-register write event carrying the SELECT word of a given
cache value (never SELECT1). -/
def selectWriteEvent (dp : DpAddress) : SelectCache → Event
  | .DPv1 s => .writeDp dp (.select_v1 s)
  | .DPv3 s _ => .writeDp dp (.select_v3 s)

/-- Is an event a `debug_port_setup` invocation? -/
def Event.isDpSetup : Event → Bool
  | .dpSetup _ => true
  | _ => false

/-- Number of `debug_port_setup` invocations in a trace. -/
def setupCount (tr : List Event) : Nat :=
  (tr.filter Event.isDpSetup).length

/-- Does an AP either fail `memory_interface` construction (swallowed) or
parse cleanly to something that is not a Class-1 ROM table with a JEP106
code?  Such APs contribute nothing to ROM-table discovery. -/
def apYieldsNothing (env : Env) (fqa : FullyQualifiedApAddress) : Bool :=
  match memory_interface env fqa with
  | .error _ => true
  | .ok _ =>
    match env.baseAddress fqa with
    | .error _ => false
    | .ok base =>
      match env.tryParse fqa base with
      | .error _ => false
      | .ok (.class1RomTable (some _) _) => false
      | .ok _ => true

/-- All-success oracle: hooks succeed, reads return 0 except DPIDR which
reports version 1 (DPv1), writes succeed, no APs, parsing finds nothing. -/
def envOk : Env :=
  { setup := fun _ => true
    connect := fun _ => true
    start := fun _ => true
    stop := fun _ => true
    flushOk := true
    readDp := fun _ r => some (match r with | .dpidr => 0x1000 | .ctrl => 0)
    writeDpOk := fun _ _ => true
    rawRead := fun _ => some 0
    rawWriteOk := fun _ => true
    validAccessPortsV1 := fun _ => []
    enumerateAccessPortsV2 := fun _ => .ok []
    memIfaceV1Ok := fun _ => true
    memIfaceV2Ok := fun _ => true
    baseAddress := fun _ => .ok 0
    tryParse := fun _ _ => .ok .other }

/-- An interface initialised on the default DP with version DPv1 and an
all-zero DPv1 select cache (the state right after lazy initialisation). -/
def ifaceDPv1 : Iface :=
  { probe := true
    current_dp := some .Default
    dps := [(.Default, ⟨.DPv1, .DPv1 ⟨0, 0, 0⟩⟩)]
    use_overrun_detect := false }

/-- An interface initialised on the default DP with version DPv3 and an
all-zero DPv3 select cache (the state right after lazy initialisation of a
DPv3 debug port). -/
def ifaceDPv3 : Iface :=
  { probe := true
    current_dp := some .Default
    dps := [(.Default, ⟨.DPv3, .DPv3 ⟨0, 0⟩ ⟨0⟩⟩)]
    use_overrun_detect := false }

end ProbeRs

namespace ProbeRs

deriving instance DecidableEq for Except

theorem lookupDp_updateDp_self (l : List (DpAddress × DpState)) (dp : DpAddress) (v : DpState) :
    lookupDp (updateDp l dp v) dp = some v := by
  induction l with
  | nil => simp [updateDp, lookupDp]
  | cons kv rest ih =>
    obtain ⟨k, w⟩ := kv
    by_cases h : k = dp <;> simp [updateDp, lookupDp, h, ih]

theorem updateDp_self (l : List (DpAddress × DpState)) (dp : DpAddress) (v : DpState)
    (h : lookupDp l dp = some v) : updateDp l dp v = l := by
  induction l with
  | nil => simp [lookupDp] at h
  | cons kv rest ih =>
    obtain ⟨k, w⟩ := kv
    by_cases hk : k = dp
    · subst hk
      simp [lookupDp] at h
      simp [updateDp, h]
    · simp [lookupDp, hk] at h
      simp [updateDp, hk, ih h]

theorem select_dp_fast (env : Env) (i : Iface) (dp : DpAddress) (st : DpState)
    (h1 : i.current_dp = some dp) (h2 : lookupDp i.dps dp = some st) :
    select_dp env i dp = (.ok st, i, []) := by
  simp [select_dp, select_dp_switch, select_dp_init, h1, h2]

end ProbeRs

namespace ProbeRs

theorem dpState_eta (st : DpState) :
    DpState.mk st.debug_port_version st.current_select = st := rfl

theorem iface_eta (i : Iface) :
    Iface.mk i.probe i.current_dp i.dps i.use_overrun_detect = i := rfl

theorem select_ap_noop (env : Env) (i : Iface) (fqa : FullyQualifiedApAddress)
    (aa : Nat) (st : DpState)
    (h1 : i.current_dp = some fqa.dp) (h2 : lookupDp i.dps fqa.dp = some st)
    (hc : computeNewSelect fqa.ap st.current_select aa = some st.current_select) :
    select_ap_and_ap_bank env i fqa aa = (.ok (), i, []) := by
  have hfast := select_dp_fast env i fqa.dp st h1 h2
  have hupd : updateDp i.dps fqa.dp st = i.dps := updateDp_self _ _ _ h2
  simp [select_ap_and_ap_bank, hfast, hc, dpState_eta, hupd, iface_eta]

theorem select_ap_write_v1 (env : Env) (i : Iface) (fqa : FullyQualifiedApAddress)
    (aa : Nat) (st : DpState) (s : SelectV1)
    (h1 : i.current_dp = some fqa.dp) (h2 : lookupDp i.dps fqa.dp = some st)
    (hc : computeNewSelect fqa.ap st.current_select aa = some (.DPv1 s))
    (hne : st.current_select ≠ .DPv1 s) :
    select_ap_and_ap_bank env i fqa aa =
      ((if env.writeDpOk fqa.dp .select then .ok () else .error .probe),
       { i with dps := updateDp i.dps fqa.dp { st with current_select := .DPv1 s } },
       [.writeDp fqa.dp (.select_v1 s)]) := by
  have hfast := select_dp_fast env i fqa.dp st h1 h2
  simp [select_ap_and_ap_bank, hfast, hc, hne, write_dp_register, DpRegWrite.reg]

theorem select_ap_write_v3_ok (env : Env) (i : Iface) (fqa : FullyQualifiedApAddress)
    (aa : Nat) (st : DpState) (s : SelectV3) (s1 : Select1)
    (h1 : i.current_dp = some fqa.dp) (h2 : lookupDp i.dps fqa.dp = some st)
    (hc : computeNewSelect fqa.ap st.current_select aa = some (.DPv3 s s1))
    (hne : st.current_select ≠ .DPv3 s s1)
    (hw : env.writeDpOk fqa.dp .select = true) :
    select_ap_and_ap_bank env i fqa aa =
      ((if env.writeDpOk fqa.dp .select1 then .ok () else .error .probe),
       { i with dps := updateDp i.dps fqa.dp { st with current_select := .DPv3 s s1 } },
       [.writeDp fqa.dp (.select_v3 s), .writeDp fqa.dp (.select1 s1)]) := by
  have hfast := select_dp_fast env i fqa.dp st h1 h2
  simp [select_ap_and_ap_bank, hfast, hc, hne, write_dp_register, DpRegWrite.reg, hw]

theorem select_ap_write_v3_fail (env : Env) (i : Iface) (fqa : FullyQualifiedApAddress)
    (aa : Nat) (st : DpState) (s : SelectV3) (s1 : Select1)
    (h1 : i.current_dp = some fqa.dp) (h2 : lookupDp i.dps fqa.dp = some st)
    (hc : computeNewSelect fqa.ap st.current_select aa = some (.DPv3 s s1))
    (hne : st.current_select ≠ .DPv3 s s1)
    (hw : env.writeDpOk fqa.dp .select = false) :
    select_ap_and_ap_bank env i fqa aa =
      (.error .probe,
       { i with dps := updateDp i.dps fqa.dp { st with current_select := .DPv3 s s1 } },
       [.writeDp fqa.dp (.select_v3 s)]) := by
  have hfast := select_dp_fast env i fqa.dp st h1 h2
  simp [select_ap_and_ap_bank, hfast, hc, hne, write_dp_register, DpRegWrite.reg, hw]

theorem select_dp_bank_skip (env : Env) (i : Iface) (dp : DpAddress)
    (a : DpRegisterAddress) (st : DpState)
    (h1 : i.current_dp = some dp) (h2 : lookupDp i.dps dp = some st)
    (ha : a.address ≠ 0 ∧ a.address ≠ 4) :
    select_dp_and_dp_bank env i dp a = (.ok (), i, []) := by
  have hfast := select_dp_fast env i dp st h1 h2
  simp [select_dp_and_dp_bank, hfast, ha]

theorem select_dp_bank_same (env : Env) (i : Iface) (dp : DpAddress)
    (a : DpRegisterAddress) (st : DpState)
    (h1 : i.current_dp = some dp) (h2 : lookupDp i.dps dp = some st)
    (ha : a.address = 0 ∨ a.address = 4)
    (hb : a.bank.getD 0 = st.current_select.dp_bank_sel) :
    select_dp_and_dp_bank env i dp a = (.ok (), i, []) := by
  have hfast := select_dp_fast env i dp st h1 h2
  have ha' : ¬(a.address ≠ 0 ∧ a.address ≠ 4) := by
    rcases ha with h | h <;> simp [h]
  simp [select_dp_and_dp_bank, hfast, ha', hb]

theorem select_dp_bank_write (env : Env) (i : Iface) (dp : DpAddress)
    (a : DpRegisterAddress) (st : DpState)
    (h1 : i.current_dp = some dp) (h2 : lookupDp i.dps dp = some st)
    (ha : a.address = 0 ∨ a.address = 4)
    (hb : a.bank.getD 0 ≠ st.current_select.dp_bank_sel) :
    select_dp_and_dp_bank env i dp a =
      ((if env.writeDpOk dp .select then .ok () else .error .probe),
       { i with dps := updateDp i.dps dp ({ st with current_select := st.current_select.set_dp_bank_sel (a.bank.getD 0) }) },
       [selectWriteEvent dp (st.current_select.set_dp_bank_sel (a.bank.getD 0))]) := by
  have hfast := select_dp_fast env i dp st h1 h2
  have ha' : ¬(a.address ≠ 0 ∧ a.address ≠ 4) := by
    rcases ha with h | h <;> simp [h]
  cases hsel : st.current_select with
  | DPv1 s =>
    rw [hsel] at hb
    simp [select_dp_and_dp_bank, hfast, ha', hb, hsel, SelectCache.set_dp_bank_sel,
      write_dp_register, DpRegWrite.reg, selectWriteEvent]
  | DPv3 s s1 =>
    rw [hsel] at hb
    simp [select_dp_and_dp_bank, hfast, ha', hb, hsel, SelectCache.set_dp_bank_sel,
      write_dp_register, DpRegWrite.reg, selectWriteEvent]

end ProbeRs

namespace ProbeRs

theorem select_ap_state (env : Env) (i : Iface) (fqa : FullyQualifiedApAddress)
    (aa : Nat) (st : DpState) (ns : SelectCache)
    (h1 : i.current_dp = some fqa.dp) (h2 : lookupDp i.dps fqa.dp = some st)
    (hc : computeNewSelect fqa.ap st.current_select aa = some ns) :
    lookupDp (select_ap_and_ap_bank env i fqa aa).2.1.dps fqa.dp =
      some { st with current_select := ns } := by
  by_cases hne : st.current_select = ns
  · rw [select_ap_noop env i fqa aa st h1 h2 (by rw [hc, hne])]
    rw [h2, ← hne]
  · cases ns with
    | DPv1 s =>
      rw [select_ap_write_v1 env i fqa aa st s h1 h2 hc hne]
      exact lookupDp_updateDp_self _ _ _
    | DPv3 s s1 =>
      by_cases hw : env.writeDpOk fqa.dp .select
      · rw [select_ap_write_v3_ok env i fqa aa st s s1 h1 h2 hc hne hw]
        exact lookupDp_updateDp_self _ _ _
      · rw [select_ap_write_v3_fail env i fqa aa st s s1 h1 h2 hc hne
          (by simpa using hw)]
        exact lookupDp_updateDp_self _ _ _

theorem select1_addr_bits (n : Nat) (h : n < 2 ^ 48) :
    ((n >>> 32) % 2 ^ 32) >>> 4 = (n >>> 36) % 2 ^ 12 := by
  have e32 : n >>> 32 = n / 2 ^ 32 := Nat.shiftRight_eq_div_pow n 32
  have e36 : n >>> 36 = n / 2 ^ 36 := Nat.shiftRight_eq_div_pow n 36
  have h16 : n / 2 ^ 32 < 2 ^ 16 := by
    apply Nat.div_lt_of_lt_mul
    calc n < 2 ^ 48 := h
    _ = 2 ^ 32 * 2 ^ 16 := by norm_num
  have h12 : n / 2 ^ 36 < 2 ^ 12 := by
    apply Nat.div_lt_of_lt_mul
    calc n < 2 ^ 48 := h
    _ = 2 ^ 36 * 2 ^ 12 := by norm_num
  have hmod : (n / 2 ^ 32) % 2 ^ 32 = n / 2 ^ 32 :=
    Nat.mod_eq_of_lt (lt_trans h16 (by norm_num))
  have hshift : (n / 2 ^ 32) >>> 4 = (n / 2 ^ 32) / 2 ^ 4 :=
    Nat.shiftRight_eq_div_pow _ 4
  rw [e32, e36, hmod, hshift, Nat.div_div_eq_div_mul,
    show (2 : Nat) ^ 32 * 2 ^ 4 = 2 ^ 36 by norm_num,
    Nat.mod_eq_of_lt h12]

/-- Claim C5: for every ADIv6 AP access at `(ApAddress::V2 base, register
offset)`, with `addr := base + offset`, the select shadow is updated so that
`SELECT.addr` holds bits 4..36 of `addr` and `SELECT1.addr` holds bits 36..48
of `addr` (stated over the 48-bit AP address space), with `dp_bank_sel`
untouched; concretely, base 0x8000_0000 with register 0x20 yields
`SELECT.addr = 0x0800_0002` and `SELECT1.addr = 0`, and base
0x1_0000_0000_0000 yields `SELECT.addr = 0` and `SELECT1.addr = 0x1000`. -/
theorem c5_adiv6_select_addr :
    (∀ (env : Env) (i : Iface) (fqa : FullyQualifiedApAddress) (aa : Nat)
       (ver : DebugPortVersion) (s : SelectV3) (s1 : Select1) (base : Option Nat),
      fqa.ap = .V2 base →
      i.current_dp = some fqa.dp →
      lookupDp i.dps fqa.dp = some ⟨ver, .DPv3 s s1⟩ →
      base.getD 0 + aa < 2 ^ 48 →
      ∃ s' s1',
        lookupDp (select_ap_and_ap_bank env i fqa aa).2.1.dps fqa.dp =
          some ⟨ver, .DPv3 s' s1'⟩ ∧
        s'.addr = ((base.getD 0 + aa) >>> 4) % 2 ^ 32 ∧
        s1'.addr = ((base.getD 0 + aa) >>> 36) % 2 ^ 12 ∧
        s'.dp_bank_sel = s.dp_bank_sel) ∧
    (select_ap_and_ap_bank envOk ifaceDPv3 ⟨.Default, .V2 (some 0x80000000)⟩ 0x20).2.1.dps =
      [(.Default, ⟨.DPv3, .DPv3 ⟨0, 0x08000002⟩ ⟨0⟩⟩)] ∧
    (select_ap_and_ap_bank envOk ifaceDPv3 ⟨.Default, .V2 (some 0x1000000000000)⟩ 0).2.1.dps =
      [(.Default, ⟨.DPv3, .DPv3 ⟨0, 0⟩ ⟨0x1000⟩⟩)] := by
  refine ⟨?_, by decide, by decide⟩
  intro env i fqa aa ver s s1 base hap h1 h2 hlt
  have haddr : (base.getD 0 + aa) % 2 ^ 64 = base.getD 0 + aa :=
    Nat.mod_eq_of_lt (lt_trans hlt (by norm_num))
  refine ⟨s.set_addr ((((base.getD 0 + aa) % 2 ^ 64) >>> 4) % 2 ^ 32),
          s1.set_addr ((((base.getD 0 + aa) % 2 ^ 64) >>> 32) % 2 ^ 32),
          ?_, ?_, ?_, rfl⟩
  · have hc : computeNewSelect fqa.ap (SelectCache.DPv3 s s1) aa =
        some (.DPv3 (s.set_addr ((((base.getD 0 + aa) % 2 ^ 64) >>> 4) % 2 ^ 32))
                    (s1.set_addr ((((base.getD 0 + aa) % 2 ^ 64) >>> 32) % 2 ^ 32))) := by
      rw [hap]
      simp only [computeNewSelect]
    exact select_ap_state env i fqa aa ⟨ver, .DPv3 s s1⟩ _ h1 h2 hc
  · simp only [SelectV3.set_addr]
    rw [haddr]
    generalize (base.getD 0 + aa) >>> 4 = t
    omega
  · simp only [Select1.set_addr]
    rw [haddr]
    have hcollapse : ((base.getD 0 + aa) >>> 32) % 2 ^ 32 % 2 ^ 32 =
        ((base.getD 0 + aa) >>> 32) % 2 ^ 32 := by
      generalize (base.getD 0 + aa) >>> 32 = t
      omega
    rw [hcollapse]
    exact select1_addr_bits _ hlt

/-- Witness for C5: the general statement applied at base 0x8000_0000,
register offset 0x20, on the freshly initialised DPv3 interface. -/
theorem c5_adiv6_select_addr_witness :
    ∃ s' s1',
      lookupDp (select_ap_and_ap_bank envOk ifaceDPv3
          ⟨.Default, .V2 (some 0x80000000)⟩ 0x20).2.1.dps .Default =
        some ⟨.DPv3, .DPv3 s' s1'⟩ ∧
      s'.addr = ((0x80000000 + 0x20 : Nat) >>> 4) % 2 ^ 32 ∧
      s1'.addr = ((0x80000000 + 0x20 : Nat) >>> 36) % 2 ^ 12 ∧
      s'.dp_bank_sel = (SelectV3.mk 0 0).dp_bank_sel :=
  c5_adiv6_select_addr.1 envOk ifaceDPv3 ⟨.Default, .V2 (some 0x80000000)⟩ 0x20
    .DPv3 ⟨0, 0⟩ ⟨0⟩ (some 0x80000000) rfl rfl (by decide) (by decide)

end ProbeRs

namespace ProbeRs

/-- Claim C7: for every DP register access on an initialised DP, if the
register address is neither 0x0 nor 0x4 then `select_dp_and_dp_bank` issues
no write and leaves the select cache unchanged; if the address is 0x0 or 0x4
the effective bank is the requested bank (0 when absent) and a single SELECT
write is issued exactly when that bank differs from the cached `dp_bank_sel`;
SELECT1 is never written for DP bank selection. -/
theorem c7_dp_bank_selection :
    ∀ (env : Env) (i : Iface) (dp : DpAddress) (a : DpRegisterAddress) (st : DpState),
      i.current_dp = some dp → lookupDp i.dps dp = some st →
      ((a.address ≠ 0 ∧ a.address ≠ 4 →
          select_dp_and_dp_bank env i dp a = (.ok (), i, [])) ∧
       ((a.address = 0 ∨ a.address = 4) →
          (a.bank.getD 0 = st.current_select.dp_bank_sel →
            select_dp_and_dp_bank env i dp a = (.ok (), i, [])) ∧
          (a.bank.getD 0 ≠ st.current_select.dp_bank_sel →
            (select_dp_and_dp_bank env i dp a).2.2 =
              [selectWriteEvent dp (st.current_select.set_dp_bank_sel (a.bank.getD 0))])) ∧
       (∀ s1v, Event.writeDp dp (.select1 s1v) ∉ (select_dp_and_dp_bank env i dp a).2.2)) := by
  intro env i dp a st h1 h2
  refine ⟨fun ha => select_dp_bank_skip env i dp a st h1 h2 ha, fun ha => ⟨?_, ?_⟩, ?_⟩
  · intro hb
    exact select_dp_bank_same env i dp a st h1 h2 ha hb
  · intro hb
    rw [select_dp_bank_write env i dp a st h1 h2 ha hb]
  · intro s1v
    by_cases haa : a.address ≠ 0 ∧ a.address ≠ 4
    · rw [select_dp_bank_skip env i dp a st h1 h2 haa]
      simp
    · have ha : a.address = 0 ∨ a.address = 4 := by tauto
      by_cases hb : a.bank.getD 0 = st.current_select.dp_bank_sel
      · rw [select_dp_bank_same env i dp a st h1 h2 ha hb]
        simp
      · rw [select_dp_bank_write env i dp a st h1 h2 ha hb]
        cases hsel : st.current_select <;>
          simp [selectWriteEvent, SelectCache.set_dp_bank_sel]

/-- Witness for C7: requesting bank 5 for address 0x4 on the initialised
DPv1 interface issues exactly the single SELECT write for bank 5. -/
theorem c7_dp_bank_selection_witness :
    (select_dp_and_dp_bank envOk ifaceDPv1 .Default ⟨some 5, 4⟩).2.2 =
      [selectWriteEvent .Default
        (SelectCache.set_dp_bank_sel (.DPv1 ⟨0, 0, 0⟩) ((some (5 : Nat)).getD 0))] :=
  (((c7_dp_bank_selection envOk ifaceDPv1 .Default ⟨some 5, 4⟩ ⟨.DPv1, .DPv1 ⟨0, 0, 0⟩⟩
      rfl (by decide)).2.1 (Or.inr rfl)).2 (by decide))

end ProbeRs

namespace ProbeRs

theorem select_ap_panic (env : Env) (i : Iface) (fqa : FullyQualifiedApAddress)
    (aa : Nat) (st : DpState)
    (h1 : i.current_dp = some fqa.dp) (h2 : lookupDp i.dps fqa.dp = some st)
    (hc : computeNewSelect fqa.ap st.current_select aa = none) :
    select_ap_and_ap_bank env i fqa aa = (.error .panicErr, i, []) := by
  simp [select_ap_and_ap_bank, select_dp_fast env i fqa.dp st h1 h2, hc]

theorem select_ap_current_dp (env : Env) (i : Iface) (fqa : FullyQualifiedApAddress)
    (aa : Nat) (st : DpState)
    (h1 : i.current_dp = some fqa.dp) (h2 : lookupDp i.dps fqa.dp = some st) :
    (select_ap_and_ap_bank env i fqa aa).2.1.current_dp = i.current_dp := by
  cases hc : computeNewSelect fqa.ap st.current_select aa with
  | none => rw [select_ap_panic env i fqa aa st h1 h2 hc]
  | some ns =>
    by_cases hne : st.current_select = ns
    · rw [select_ap_noop env i fqa aa st h1 h2 (by rw [hc, hne])]
    · cases ns with
      | DPv1 s => rw [select_ap_write_v1 env i fqa aa st s h1 h2 hc hne]
      | DPv3 s s1 =>
        by_cases hw : env.writeDpOk fqa.dp .select
        · rw [select_ap_write_v3_ok env i fqa aa st s s1 h1 h2 hc hne hw]
        · rw [select_ap_write_v3_fail env i fqa aa st s s1 h1 h2 hc hne (by simpa using hw)]

/-- Claim C6: bank selection is idempotent on repeated same-bank accesses —
an AP access whose required select-cache value equals the cached one issues
no SELECT write at all (the raw AP read is the only probe traffic), and after
any successful AP bank selection, a second access to the same V1 port and
register bank produces no further SELECT traffic. -/
theorem c6_select_write_idempotent :
    ∀ (env : Env) (i : Iface) (fqa : FullyQualifiedApAddress) (aa aa' : Nat) (st : DpState),
      i.current_dp = some fqa.dp → lookupDp i.dps fqa.dp = some st →
      ((computeNewSelect fqa.ap st.current_select aa = some st.current_select →
          select_ap_and_ap_bank env i fqa aa = (.ok (), i, []) ∧
          (read_raw_ap_register env i fqa aa).2.2 = [Event.rawRead (.ap (aa % 256))]) ∧
       (∀ p, fqa.ap = .V1 p → (aa' % 256) / 16 = (aa % 256) / 16 →
          (select_ap_and_ap_bank env i fqa aa).1 = .ok () →
          select_ap_and_ap_bank env (select_ap_and_ap_bank env i fqa aa).2.1 fqa aa' =
            (.ok (), (select_ap_and_ap_bank env i fqa aa).2.1, []))) := by
  intro env i fqa aa aa' st h1 h2
  constructor
  · intro hc
    have hnoop := select_ap_noop env i fqa aa st h1 h2 hc
    refine ⟨hnoop, ?_⟩
    simp [read_raw_ap_register, hnoop, raw_read_register]
  · intro p hap hb hok
    cases hsel : st.current_select with
    | DPv3 s s1 =>
      have hc : computeNewSelect fqa.ap st.current_select aa = none := by
        rw [hap, hsel]
        rfl
      rw [select_ap_panic env i fqa aa st h1 h2 hc] at hok
      simp at hok
    | DPv1 s =>
      have hc : computeNewSelect fqa.ap st.current_select aa =
          some (.DPv1 ((s.set_ap_sel p).set_ap_bank_sel ((aa % 256) / 16))) := by
        rw [hap, hsel]
        rfl
      have hstate := select_ap_state env i fqa aa st
        (.DPv1 ((s.set_ap_sel p).set_ap_bank_sel ((aa % 256) / 16))) h1 h2 hc
      have hcur := select_ap_current_dp env i fqa aa st h1 h2
      apply select_ap_noop env _ fqa aa'
        ({ st with current_select := .DPv1 ((s.set_ap_sel p).set_ap_bank_sel ((aa % 256) / 16)) })
        (by rw [hcur, h1]) hstate
      rw [hap]
      simp only [computeNewSelect, Option.some.injEq, SelectCache.DPv1.injEq]
      rw [hb]
      simp [SelectV1.set_ap_sel, SelectV1.set_ap_bank_sel]

/-- Witness for C6: after the first AP access at (port 3, address 0xD4) on
the initialised DPv1 interface, a second access at (port 3, address 0xD8) —
same bank 0xD — issues no SELECT traffic at all. -/
theorem c6_select_write_idempotent_witness :
    select_ap_and_ap_bank envOk
        (select_ap_and_ap_bank envOk ifaceDPv1 ⟨.Default, .V1 3⟩ 0xD4).2.1
        ⟨.Default, .V1 3⟩ 0xD8 =
      (.ok (), (select_ap_and_ap_bank envOk ifaceDPv1 ⟨.Default, .V1 3⟩ 0xD4).2.1, []) :=
  ((c6_select_write_idempotent envOk ifaceDPv1 ⟨.Default, .V1 3⟩ 0xD4 0xD8
      ⟨.DPv1, .DPv1 ⟨0, 0, 0⟩⟩ rfl (by decide)).2 3 rfl (by decide) (by decide))

end ProbeRs

namespace ProbeRs

/-- Claim C1 counterexample: on a DPv3 select cache, the access at base
0x8000_0000 register 0x20 changes only the SELECT word — the computed SELECT1
component equals the cached one — yet the code issues a SELECT1 write, which
the claim says must not happen. -/
theorem c1_counterexample :
    computeNewSelect (.V2 (some 0x80000000)) (.DPv3 ⟨0, 0⟩ ⟨0⟩) 0x20 =
      some (.DPv3 ⟨0, 0x08000002⟩ ⟨0⟩) ∧
    Event.writeDp .Default (.select1 ⟨0⟩) ∈
      (select_ap_and_ap_bank envOk ifaceDPv3 ⟨.Default, .V2 (some 0x80000000)⟩ 0x20).2.2 := by
  decide

/-- Claim C1 (amended): on DPv3, whenever AP bank selection changes the
select cache at all — whether only SELECT or both words moved — the code
writes SELECT and then SELECT1, always both together; when the cache is
unchanged, no write is issued. -/
theorem c1_amended_dpv3_writes :
    ∀ (env : Env) (i : Iface) (fqa : FullyQualifiedApAddress) (aa : Nat)
      (st : DpState) (s' : SelectV3) (s1' : Select1),
      i.current_dp = some fqa.dp → lookupDp i.dps fqa.dp = some st →
      computeNewSelect fqa.ap st.current_select aa = some (.DPv3 s' s1') →
      env.writeDpOk fqa.dp .select = true →
      ((SelectCache.DPv3 s' s1' ≠ st.current_select →
          (select_ap_and_ap_bank env i fqa aa).2.2 =
            [.writeDp fqa.dp (.select_v3 s'), .writeDp fqa.dp (.select1 s1')]) ∧
       (SelectCache.DPv3 s' s1' = st.current_select →
          (select_ap_and_ap_bank env i fqa aa).2.2 = [])) := by
  intro env i fqa aa st s' s1' h1 h2 hc hw
  constructor
  · intro hne
    rw [select_ap_write_v3_ok env i fqa aa st s' s1' h1 h2 hc (fun h => hne h.symm) hw]
  · intro heq
    rw [select_ap_noop env i fqa aa st h1 h2 (by rw [hc, heq])]

/-- Witness for the amended C1: the SELECT-only move at base 0x8000_0000
register 0x20 issues the SELECT write followed by the SELECT1 write. -/
theorem c1_amended_dpv3_writes_witness :
    (select_ap_and_ap_bank envOk ifaceDPv3 ⟨.Default, .V2 (some 0x80000000)⟩ 0x20).2.2 =
      [.writeDp .Default (.select_v3 ⟨0, 0x08000002⟩), .writeDp .Default (.select1 ⟨0⟩)] :=
  (c1_amended_dpv3_writes envOk ifaceDPv3 ⟨.Default, .V2 (some 0x80000000)⟩ 0x20
      ⟨.DPv3, .DPv3 ⟨0, 0⟩ ⟨0⟩⟩ ⟨0, 0x08000002⟩ ⟨0⟩ rfl (by decide) (by decide) rfl).1
    (by decide)

/-- Oracle on which every probe write of the SELECT register fails while
everything else succeeds. -/
def envSelectWriteFails : Env :=
  { envOk with
    writeDpOk := fun _ r => match r with | .select => false | _ => true }

/-- Claim C4 counterexample: on DPv3, accessing the AP at base 2^36 moves
only the SELECT1 half of the cache (SELECT recomputes to its old value); the
SELECT write is issued and fails, the call returns an error, and the cache's
SELECT1 half has advanced from 0 to 1 even though no SELECT1 write was ever
issued — the cache advanced ahead of the corresponding probe write. -/
theorem c4_counterexample :
    (select_ap_and_ap_bank envSelectWriteFails ifaceDPv3
        ⟨.Default, .V2 (some 68719476736)⟩ 0).1 = .error .probe ∧
    lookupDp (select_ap_and_ap_bank envSelectWriteFails ifaceDPv3
        ⟨.Default, .V2 (some 68719476736)⟩ 0).2.1.dps .Default =
      some ⟨.DPv3, .DPv3 ⟨0, 0⟩ ⟨1⟩⟩ ∧
    Event.writeDp .Default (.select1 ⟨1⟩) ∉
      (select_ap_and_ap_bank envSelectWriteFails ifaceDPv3
        ⟨.Default, .V2 (some 68719476736)⟩ 0).2.2 ∧
    Event.writeDp .Default (.select1 ⟨0⟩) ∉
      (select_ap_and_ap_bank envSelectWriteFails ifaceDPv3
        ⟨.Default, .V2 (some 68719476736)⟩ 0).2.2 := by
  decide

/-- Claim C4 (amended): when DP-bank or AP-bank selection on an initialised
DP returns an error, either the interface state is exactly as before the
call, or the cache holds the newly computed select value and the SELECT write
carrying that value was issued on the same path (the write may itself have
failed, and on DPv3 the SELECT1 write may not have been issued). -/
theorem c4_amended_cache_write_coupling :
    ∀ (env : Env) (i : Iface) (dp : DpAddress) (st : DpState) (a : DpRegisterAddress)
      (fqa : FullyQualifiedApAddress) (aa : Nat),
      i.current_dp = some dp → lookupDp i.dps dp = some st → fqa.dp = dp →
      ((∀ e, (select_dp_and_dp_bank env i dp a).1 = .error e →
          (select_dp_and_dp_bank env i dp a).2.1 = i ∨
          ∃ st', lookupDp (select_dp_and_dp_bank env i dp a).2.1.dps dp = some st' ∧
            selectWriteEvent dp st'.current_select ∈ (select_dp_and_dp_bank env i dp a).2.2) ∧
       (∀ e, (select_ap_and_ap_bank env i fqa aa).1 = .error e →
          (select_ap_and_ap_bank env i fqa aa).2.1 = i ∨
          ∃ st', lookupDp (select_ap_and_ap_bank env i fqa aa).2.1.dps dp = some st' ∧
            selectWriteEvent dp st'.current_select ∈ (select_ap_and_ap_bank env i fqa aa).2.2)) := by
  intro env i dp st a fqa aa h1 h2 hdp
  constructor
  · intro e he
    by_cases haa : a.address ≠ 0 ∧ a.address ≠ 4
    · rw [select_dp_bank_skip env i dp a st h1 h2 haa] at he
      simp at he
    · have ha : a.address = 0 ∨ a.address = 4 := by tauto
      by_cases hb : a.bank.getD 0 = st.current_select.dp_bank_sel
      · rw [select_dp_bank_same env i dp a st h1 h2 ha hb] at he
        simp at he
      · right
        rw [select_dp_bank_write env i dp a st h1 h2 ha hb]
        refine ⟨{ st with current_select := st.current_select.set_dp_bank_sel (a.bank.getD 0) },
          lookupDp_updateDp_self _ _ _, ?_⟩
        simp
  · intro e he
    subst hdp
    cases hc : computeNewSelect fqa.ap st.current_select aa with
    | none =>
      left
      rw [select_ap_panic env i fqa aa st h1 h2 hc]
    | some ns =>
      by_cases hne : st.current_select = ns
      · rw [select_ap_noop env i fqa aa st h1 h2 (by rw [hc, hne])] at he
        simp at he
      · right
        refine ⟨{ st with current_select := ns },
          select_ap_state env i fqa aa st ns h1 h2 hc, ?_⟩
        cases ns with
        | DPv1 s =>
          rw [select_ap_write_v1 env i fqa aa st s h1 h2 hc hne]
          simp [selectWriteEvent]
        | DPv3 s s1 =>
          by_cases hw : env.writeDpOk fqa.dp .select
          · rw [select_ap_write_v3_ok env i fqa aa st s s1 h1 h2 hc hne hw]
            simp [selectWriteEvent]
          · rw [select_ap_write_v3_fail env i fqa aa st s s1 h1 h2 hc hne (by simpa using hw)]
            simp [selectWriteEvent]

/-- Witness for the amended C4: at the failing-SELECT-write oracle, the
erroring AP bank selection leaves the cache at the new value with its SELECT
write present in the trace. -/
theorem c4_amended_cache_write_coupling_witness :
    (select_ap_and_ap_bank envSelectWriteFails ifaceDPv3
        ⟨.Default, .V2 (some 68719476736)⟩ 0).2.1 = ifaceDPv3 ∨
    ∃ st', lookupDp (select_ap_and_ap_bank envSelectWriteFails ifaceDPv3
        ⟨.Default, .V2 (some 68719476736)⟩ 0).2.1.dps .Default = some st' ∧
      selectWriteEvent .Default st'.current_select ∈
        (select_ap_and_ap_bank envSelectWriteFails ifaceDPv3
          ⟨.Default, .V2 (some 68719476736)⟩ 0).2.2 :=
  (c4_amended_cache_write_coupling envSelectWriteFails ifaceDPv3 .Default
      ⟨.DPv3, .DPv3 ⟨0, 0⟩ ⟨0⟩⟩ ⟨none, 8⟩ ⟨.Default, .V2 (some 68719476736)⟩ 0
      rfl (by decide) rfl).2 .probe (by decide)

end ProbeRs

namespace ProbeRs

/-- Claim C10: the `Unsupported` arm of `access_ports` is a hard error and
never yields a normal return value — if the DP selected by the normal path
records an `Unsupported` version, `access_ports` returns the fatal
(`unreachable!`) error, and conversely a normal `access_ports` return implies
the recorded version is one of DPv0..DPv3. -/
theorem c10_unsupported_version_hard_error :
    ∀ (env : Env) (i : Iface) (dp : DpAddress),
      (∀ st i1 ev b, select_dp env i dp = (.ok st, i1, ev) →
         st.debug_port_version = .Unsupported b →
         access_ports env i dp = (.error .panicErr, i1, ev)) ∧
      (∀ aps i1 ev st i2 ev2 b,
         access_ports env i dp = (.ok aps, i1, ev) →
         select_dp env i dp = (.ok st, i2, ev2) →
         st.debug_port_version ≠ .Unsupported b) := by
  intro env i dp
  constructor
  · intro st i1 ev b hsel hver
    simp [access_ports, hsel, hver]
  · intro aps i1 ev st i2 ev2 b hap hsel hver
    unfold access_ports at hap
    rw [hsel] at hap
    simp [hver] at hap

/-- Oracle whose DPIDR read reports the unsupported version nibble 5. -/
def envUnsupported : Env :=
  { envOk with
    readDp := fun _ r => some (match r with | .dpidr => 0x5000 | .ctrl => 0) }

/-- Witness for C10: selecting the default DP against a DPIDR reporting
version 5 records `Unsupported 5`, and `access_ports` then returns the fatal
error. -/
theorem c10_unsupported_version_hard_error_witness :
    access_ports envUnsupported (create false) .Default =
      (.error .panicErr,
       { probe := true, current_dp := some .Default,
         dps := [(.Default, ⟨.Unsupported 5, .DPv1 ⟨0, 0, 0⟩⟩)],
         use_overrun_detect := false },
       [.rawFlush, .dpSetup .Default, .dpStart .Default,
        .readDp .Default .ctrl, .readDp .Default .dpidr]) :=
  (c10_unsupported_version_hard_error envUnsupported (create false) .Default).1
    ⟨.Unsupported 5, .DPv1 ⟨0, 0, 0⟩⟩
    { probe := true, current_dp := some .Default,
      dps := [(.Default, ⟨.Unsupported 5, .DPv1 ⟨0, 0, 0⟩⟩)],
      use_overrun_detect := false }
    [.rawFlush, .dpSetup .Default, .dpStart .Default,
     .readDp .Default .ctrl, .readDp .Default .dpidr]
    5 (by decide) rfl

/-- Oracle with a single V1 AP whose memory interface construction succeeds
but whose `base_address` read fails. -/
def envBaseFails : Env :=
  { envOk with
    validAccessPortsV1 := fun _ => [⟨.Default, .V1 0⟩]
    baseAddress := fun _ => .error .base }

/-- Claim C2 counterexample: with one AP whose memory interface is obtained
successfully but whose `base_address` read fails, ROM-table discovery returns
that error instead of swallowing it and yielding `Ok(None)` — the
`base_address` and `try_parse` failures propagate through `?`. -/
theorem c2_counterexample :
    memory_interface envBaseFails ⟨.Default, .V1 0⟩ = .ok () ∧
    (read_chip_info_from_rom_table envBaseFails ifaceDPv1 .Default).1 = .error .base := by
  decide

/-- Claim C2 (amended): in ROM-table discovery, a failure to obtain the
memory interface for an AP is swallowed and iteration continues with the next
AP, but failures of `base_address` or of component parsing propagate as the
function's error; the result is `Ok(None)` when every AP either fails memory
interface construction or parses cleanly to something that is not a Class-1
ROM table with a JEP106 code. -/
theorem c2_amended_discovery_errors :
    ∀ (env : Env) (fqa : FullyQualifiedApAddress) (rest : List FullyQualifiedApAddress),
      ((∀ e, memory_interface env fqa = .error e →
          read_chip_info_loop env (fqa :: rest) = read_chip_info_loop env rest) ∧
       (∀ e, memory_interface env fqa = .ok () → env.baseAddress fqa = .error e →
          read_chip_info_loop env (fqa :: rest) = .error e) ∧
       (∀ e b, memory_interface env fqa = .ok () → env.baseAddress fqa = .ok b →
          env.tryParse fqa b = .error e →
          read_chip_info_loop env (fqa :: rest) = .error e) ∧
       (∀ aps : List FullyQualifiedApAddress, (∀ x ∈ aps, apYieldsNothing env x = true) →
          read_chip_info_loop env aps = .ok none)) := by
  intro env fqa rest
  refine ⟨?_, ?_, ?_, ?_⟩
  · intro e hm
    simp [read_chip_info_loop, hm]
  · intro e hm hb
    simp [read_chip_info_loop, hm, hb]
  · intro e b hm hb hp
    simp [read_chip_info_loop, hm, hb, hp]
  · intro aps hall
    induction aps with
    | nil => simp [read_chip_info_loop]
    | cons x xs ih =>
      have hx : apYieldsNothing env x = true := hall x (List.mem_cons_self x xs)
      have hxs : ∀ y ∈ xs, apYieldsNothing env y = true :=
        fun y hy => hall y (List.mem_cons_of_mem x hy)
      cases hm : memory_interface env x with
      | error e => simp [read_chip_info_loop, hm, ih hxs]
      | ok u =>
        cases hb : env.baseAddress x with
        | error e => simp [apYieldsNothing, hm, hb] at hx
        | ok base =>
          cases hp : env.tryParse x base with
          | error e => simp [apYieldsNothing, hm, hb, hp] at hx
          | ok comp =>
            cases comp with
            | other => simp [read_chip_info_loop, hm, hb, hp, ih hxs]
            | class1RomTable jep part =>
              cases jep with
              | some j => simp [apYieldsNothing, hm, hb, hp] at hx
              | none => simp [read_chip_info_loop, hm, hb, hp, ih hxs]

/-- Witness for the amended C2: a single AP that parses to a non-ROM-table
component yields `Ok(None)`. -/
theorem c2_amended_discovery_errors_witness :
    read_chip_info_loop envOk [⟨.Default, .V1 0⟩] = .ok none :=
  (c2_amended_discovery_errors envOk ⟨.Default, .V1 0⟩ []).2.2.2
    [⟨.Default, .V1 0⟩] (by decide)

end ProbeRs

namespace ProbeRs

theorem stopOtherDps_connect_mem (env : Env) (l : List DpAddress) (d : DpAddress) :
    Event.dpConnect d ∈ stopOtherDps env l ↔ d ∈ l := by
  induction l with
  | nil => simp [stopOtherDps]
  | cons x rest ih =>
    by_cases h : env.connect x <;> simp [stopOtherDps, h, ih]

theorem stopOtherDps_stop_mem (env : Env) (l : List DpAddress) (d : DpAddress) :
    Event.dpStop d ∈ stopOtherDps env l ↔ d ∈ l ∧ env.connect d = true := by
  induction l with
  | nil => simp [stopOtherDps]
  | cons x rest ih =>
    by_cases hd : d = x
    · subst hd
      by_cases h : env.connect d <;> simp [stopOtherDps, h, ih]
    · by_cases h : env.connect x <;> simp [stopOtherDps, h, ih, hd]

theorem stopOtherDps_flush_not_mem (env : Env) (l : List DpAddress) :
    Event.rawFlush ∉ stopOtherDps env l := by
  induction l with
  | nil => simp [stopOtherDps]
  | cons x rest ih =>
    by_cases h : env.connect x <;> simp [stopOtherDps, h, ih]

/-- Claim C9: across `close()` and drop, the disconnect procedure runs
exactly once and never aborts: the current DP is stopped first without being
reconnected, every other DP with cached state is visited with a connect
attempt and — only on success — a stop, a failed connect skipping only that
DP's stop, then `raw_flush` is attempted last; afterwards `current_dp` is
absent, the probe is gone, and a subsequent drop performs nothing. -/
theorem c9_disconnect_discipline :
    ∀ (env : Env) (i : Iface) (c : DpAddress),
      i.probe = true → i.current_dp = some c →
      (((close env i).1.probe = false ∧ (close env i).1.current_dp = none) ∧
       (close env i).2.head? = some (.dpStop c) ∧
       Event.dpConnect c ∉ (close env i).2 ∧
       (∀ d, d ∈ (i.dps.map Prod.fst).filter (fun x => x ≠ c) →
          Event.dpConnect d ∈ (close env i).2 ∧
          (Event.dpStop d ∈ (close env i).2 ↔ env.connect d = true)) ∧
       (close env i).2.getLast? = some .rawFlush ∧
       dropIface env (close env i).1 = ((close env i).1, [])) := by
  intro env i c hprobe hcur
  have hd : disconnect env i =
      ({ i with current_dp := none },
       [.dpStop c]
         ++ stopOtherDps env ((i.dps.map Prod.fst).filter (fun d => d ≠ c))
         ++ [.rawFlush]) := by
    simp [disconnect, hcur]
  have hclose : close env i =
      ({ i with current_dp := none, probe := false },
       [.dpStop c]
         ++ stopOtherDps env ((i.dps.map Prod.fst).filter (fun d => d ≠ c))
         ++ [.rawFlush]) := by
    simp [close, hd]
  refine ⟨⟨by rw [hclose], by rw [hclose]⟩, ?_, ?_, ?_, ?_, ?_⟩
  · rw [hclose]
    simp
  · rw [hclose]
    simp [stopOtherDps_connect_mem]
  · intro d hdmem
    have hne : d ≠ c := by
      have := List.of_mem_filter hdmem
      simpa using this
    rw [hclose]
    have hconn : Event.dpConnect d ∈
        stopOtherDps env ((i.dps.map Prod.fst).filter (fun x => x ≠ c)) :=
      (stopOtherDps_connect_mem env _ d).mpr hdmem
    have hstop := stopOtherDps_stop_mem env
      ((i.dps.map Prod.fst).filter (fun x => x ≠ c)) d
    refine ⟨List.mem_append.mpr (Or.inl (List.mem_append.mpr (Or.inr hconn))), ?_⟩
    constructor
    · intro hmem
      rcases List.mem_append.mp hmem with h12 | h3
      · rcases List.mem_append.mp h12 with h1 | h2
        · exact absurd (by simpa using List.mem_singleton.mp h1) hne
        · exact (hstop.mp h2).2
      · exact absurd (List.mem_singleton.mp h3) (by simp)
    · intro hc2
      have hs : Event.dpStop d ∈
          stopOtherDps env ((i.dps.map Prod.fst).filter (fun x => x ≠ c)) :=
        hstop.mpr ⟨hdmem, hc2⟩
      exact List.mem_append.mpr (Or.inl (List.mem_append.mpr (Or.inr hs)))
  · rw [hclose]
    rw [show [Event.dpStop c]
        ++ stopOtherDps env ((i.dps.map Prod.fst).filter (fun d => d ≠ c))
        ++ [Event.rawFlush] =
      (Event.dpStop c :: stopOtherDps env ((i.dps.map Prod.fst).filter (fun d => d ≠ c)))
        ++ [Event.rawFlush] by simp]
    exact List.getLast?_concat _
  · rw [hclose]
    simp [dropIface]

/-- Oracle whose `debug_port_connect` fails exactly for the multidrop DP with
target id 1. -/
def envConnectFailsOne : Env :=
  { envOk with
    connect := fun d => match d with | .Multidrop 1 0 => false | _ => true }

/-- An interface holding cached state for three DPs, the default one being
current. -/
def ifaceThree : Iface :=
  { probe := true
    current_dp := some .Default
    dps := [(.Default, ⟨.DPv1, .DPv1 ⟨0, 0, 0⟩⟩),
            (.Multidrop 1 0, ⟨.DPv1, .DPv1 ⟨0, 0, 0⟩⟩),
            (.Multidrop 2 0, ⟨.DPv1, .DPv1 ⟨0, 0, 0⟩⟩)]
    use_overrun_detect := false }

/-- Witness for C9: dropping three DPs with one failing connect — the claim
instantiated at a concrete environment and interface. -/
theorem c9_disconnect_discipline_witness :
    (((close envConnectFailsOne ifaceThree).1.probe = false ∧
      (close envConnectFailsOne ifaceThree).1.current_dp = none) ∧
     (close envConnectFailsOne ifaceThree).2.head? = some (.dpStop .Default) ∧
     Event.dpConnect .Default ∉ (close envConnectFailsOne ifaceThree).2 ∧
     (∀ d, d ∈ (ifaceThree.dps.map Prod.fst).filter (fun x => x ≠ .Default) →
        Event.dpConnect d ∈ (close envConnectFailsOne ifaceThree).2 ∧
        (Event.dpStop d ∈ (close envConnectFailsOne ifaceThree).2 ↔
          envConnectFailsOne.connect d = true)) ∧
     (close envConnectFailsOne ifaceThree).2.getLast? = some .rawFlush ∧
     dropIface envConnectFailsOne (close envConnectFailsOne ifaceThree).1 =
       ((close envConnectFailsOne ifaceThree).1, [])) :=
  c9_disconnect_discipline envConnectFailsOne ifaceThree .Default rfl rfl

end ProbeRs

namespace ProbeRs

theorem select_dp_init_frame (env : Env) (i : Iface) (dp : DpAddress) (sw : Bool) :
    setupCount (select_dp_init env i dp sw).2.2 = 0 ∧
    (select_dp_init env i dp sw).2.1.current_dp = i.current_dp := by
  unfold select_dp_init
  cases hl : lookupDp i.dps dp with
  | some st =>
    cases sw <;> cases hs : env.start dp <;>
      simp [debug_port_start, hs, hl, setupCount, Event.isDpSetup]
  | none =>
    cases hs : env.start dp
    · simp [debug_port_start, hs, setupCount, Event.isDpSetup]
    · cases hr : env.readDp dp .ctrl with
      | none =>
        simp [debug_port_start, hs, read_dp_register, hr, setupCount, Event.isDpSetup]
      | some v =>
        by_cases ho : ctrl_orun_detect v ≠ i.use_overrun_detect
        · cases hw : env.writeDpOk dp .ctrl with
          | false =>
            simp [debug_port_start, hs, read_dp_register, hr, ho, write_dp_register,
              DpRegWrite.reg, hw, setupCount, Event.isDpSetup]
          | true =>
            cases hr2 : env.readDp dp .dpidr with
            | none =>
              simp [debug_port_start, hs, read_dp_register, hr, hr2, ho,
                write_dp_register, DpRegWrite.reg, hw, setupCount, Event.isDpSetup]
            | some raw =>
              simp [debug_port_start, hs, read_dp_register, hr, hr2, ho,
                write_dp_register, DpRegWrite.reg, hw, setupCount, Event.isDpSetup,
                lookupDp_updateDp_self]
        · cases hr2 : env.readDp dp .dpidr with
          | none =>
            simp [debug_port_start, hs, read_dp_register, hr, hr2, ho,
              setupCount, Event.isDpSetup]
          | some raw =>
            simp [debug_port_start, hs, read_dp_register, hr, hr2, ho,
              setupCount, Event.isDpSetup, lookupDp_updateDp_self]

end ProbeRs

namespace ProbeRs

/-- Claim C8: for every `select_dp` call with the requested DP not current:
if `current_dp` is absent, `debug_port_setup` is invoked (no connect); if a
DP is current, `debug_port_connect` is invoked first and, exactly when it
fails, a single fallback `debug_port_setup` follows; a `debug_port_setup`
failure is surfaced as the call's error with the interface unchanged, and on
the fallback-success path `current_dp` is set to the requested DP. -/
theorem c8_dp_switch_fallback :
    ∀ (env : Env) (i : Iface) (dp : DpAddress),
      env.flushOk = true → i.current_dp ≠ some dp →
      ((i.current_dp = none →
          (select_dp env i dp).2.2.take 2 = [.rawFlush, .dpSetup dp] ∧
          (∀ d', Event.dpConnect d' ∉ (select_dp env i dp).2.2.take 2) ∧
          (env.setup dp = false →
            select_dp env i dp = (.error .setup, i, [.rawFlush, .dpSetup dp]))) ∧
       (∀ d0, i.current_dp = some d0 →
          (select_dp env i dp).2.2.take 2 = [.rawFlush, .dpConnect dp] ∧
          (env.connect dp = true → setupCount (select_dp env i dp).2.2 = 0) ∧
          (env.connect dp = false →
            (select_dp env i dp).2.2.take 3 = [.rawFlush, .dpConnect dp, .dpSetup dp] ∧
            setupCount (select_dp env i dp).2.2 = 1 ∧
            (env.setup dp = false →
              select_dp env i dp =
                (.error .setup, i, [.rawFlush, .dpConnect dp, .dpSetup dp])) ∧
            (env.setup dp = true →
              (select_dp env i dp).2.1.current_dp = some dp)))) := by
  intro env i dp hflush hne
  constructor
  · intro hcur
    cases hsetup : env.setup dp with
    | false =>
      have hsel : select_dp env i dp = (.error .setup, i, [.rawFlush, .dpSetup dp]) := by
        simp [select_dp, select_dp_switch, hne, hcur, raw_flush, hflush,
          debug_port_setup, hsetup]
      rw [hsel]
      exact ⟨rfl, by simp, fun _ => rfl⟩
    | true =>
      rcases hinit : select_dp_init env { i with current_dp := some dp } dp true
        with ⟨r, i2, ev2⟩
      have hsel : select_dp env i dp = (r, i2, [.rawFlush, .dpSetup dp] ++ ev2) := by
        simp [select_dp, select_dp_switch, hne, hcur, raw_flush, hflush,
          debug_port_setup, hsetup, hinit]
      rw [hsel]
      exact ⟨by simp, by simp, fun h => Bool.noConfusion h⟩
  · intro d0 hcur
    have hd0 : ¬(d0 = dp) := fun h => hne (by rw [hcur, h])
    cases hconn : env.connect dp with
    | true =>
      rcases hinit : select_dp_init env { i with current_dp := some dp } dp true
        with ⟨r, i2, ev2⟩
      have hsel : select_dp env i dp = (r, i2, [.rawFlush, .dpConnect dp] ++ ev2) := by
        simp [select_dp, select_dp_switch, hne, hcur, hd0, raw_flush, hflush,
          debug_port_connect, hconn, hinit]
      have hcount : setupCount ev2 = 0 := by
        have hfr := (select_dp_init_frame env { i with current_dp := some dp } dp true).1
        rw [hinit] at hfr
        exact hfr
      rw [hsel]
      refine ⟨by simp, fun _ => ?_, fun h => Bool.noConfusion h⟩
      simp only [setupCount, List.filter_append] at *
      simp [Event.isDpSetup, hcount]
    | false =>
      cases hsetup : env.setup dp with
      | false =>
        have hsel : select_dp env i dp =
            (.error .setup, i, [.rawFlush, .dpConnect dp, .dpSetup dp]) := by
          simp [select_dp, select_dp_switch, hne, hcur, hd0, raw_flush, hflush,
            debug_port_connect, hconn, debug_port_setup, hsetup]
        rw [hsel]
        refine ⟨rfl, fun h => Bool.noConfusion h, fun _ => ⟨rfl, ?_, fun _ => rfl,
          fun h => Bool.noConfusion h⟩⟩
        simp [setupCount, Event.isDpSetup]
      | true =>
        rcases hinit : select_dp_init env { i with current_dp := some dp } dp true
          with ⟨r, i2, ev2⟩
        have hsel : select_dp env i dp =
            (r, i2, [.rawFlush, .dpConnect dp, .dpSetup dp] ++ ev2) := by
          simp [select_dp, select_dp_switch, hne, hcur, hd0, raw_flush, hflush,
            debug_port_connect, hconn, debug_port_setup, hsetup, hinit]
        have hframe := select_dp_init_frame env { i with current_dp := some dp } dp true
        rw [hinit] at hframe
        rw [hsel]
        refine ⟨by simp, fun h => Bool.noConfusion h, fun _ => ⟨by simp, ?_,
          fun h => Bool.noConfusion h, fun _ => hframe.2⟩⟩
        have hcount : setupCount ev2 = 0 := hframe.1
        simp only [setupCount, List.filter_append] at *
        simp [Event.isDpSetup, hcount]

end ProbeRs

namespace ProbeRs

/-- Oracle whose `debug_port_connect` always fails while everything else
succeeds. -/
def envConnectFails : Env :=
  { envOk with connect := fun _ => false }

/-- Witness for C8: switching from the default DP to a multidrop DP whose
connect fails goes flush, connect, fallback setup (exactly one), and since
setup succeeds the interface ends up current on the requested DP. -/
theorem c8_dp_switch_fallback_witness :
    (select_dp envConnectFails ifaceDPv1 (.Multidrop 7 0)).2.2.take 3 =
      [.rawFlush, .dpConnect (.Multidrop 7 0), .dpSetup (.Multidrop 7 0)] ∧
    setupCount (select_dp envConnectFails ifaceDPv1 (.Multidrop 7 0)).2.2 = 1 ∧
    (envConnectFails.setup (.Multidrop 7 0) = false →
      select_dp envConnectFails ifaceDPv1 (.Multidrop 7 0) =
        (.error .setup, ifaceDPv1,
         [.rawFlush, .dpConnect (.Multidrop 7 0), .dpSetup (.Multidrop 7 0)])) ∧
    (envConnectFails.setup (.Multidrop 7 0) = true →
      (select_dp envConnectFails ifaceDPv1 (.Multidrop 7 0)).2.1.current_dp =
        some (.Multidrop 7 0)) :=
  ((c8_dp_switch_fallback envConnectFails ifaceDPv1 (.Multidrop 7 0) rfl
      (by decide)).2 .Default rfl).2.2 rfl

/-- The interface after initialising the default DPv1 DP and then selecting
AP 3 bank 0xD: the select cache holds `ap_sel = 3`, `ap_bank_sel = 0xD`. -/
def c3Pre : Iface :=
  (select_ap_and_ap_bank envOk (select_dp envOk (create false) .Default).2.1
    ⟨.Default, .V1 3⟩ 0xD4).2.1

/-- Claim C3 counterexample: from a state whose select cache points at AP 3
bank 0xD, `reinitialize` succeeds but leaves the DP's cached state (and in
particular the select-cache value) carried over from before, so the final
state is not byte-identical to a fresh `create` followed by
`select_debug_port` of the same DP, whose cache is all-zero. -/
theorem c3_counterexample :
    ( reinitialize envOk c3Pre).1 = .ok () ∧
    lookupDp ( reinitialize envOk c3Pre).2.1.dps .Default =
      some ⟨.DPv1, .DPv1 ⟨0, 3, 0xD⟩⟩ ∧
    lookupDp (select_dp envOk (create false) .Default).2.1.dps .Default =
      some ⟨.DPv1, .DPv1 ⟨0, 0, 0⟩⟩ ∧
    lookupDp ( reinitialize envOk c3Pre).2.1.dps .Default ≠
      lookupDp (select_dp envOk (create false) .Default).2.1.dps .Default := by
  decide

/-- Claim C3 (amended): `reinitialize` performs a disconnect — after which
`current_dp` is absent — followed by reselection of the previously current
DP; it restores `current_dp` and retains the DP-state map unchanged, so the
recorded version and the select-cache shape and value are carried over from
before the call rather than being freshly re-initialised (the state is
byte-identical to a fresh create-and-select only when the previous select
cache already equals its fresh post-initialisation value). -/
theorem c3_amended_reinit_state :
    ∀ (env : Env) (i : Iface) (dp : DpAddress) (st : DpState),
      env.flushOk = true → env.setup dp = true → env.start dp = true →
      i.current_dp = some dp → lookupDp i.dps dp = some st →
      ((disconnect env i).1.current_dp = none ∧
       ( reinitialize env i).1 = .ok () ∧
       ( reinitialize env i).2.1.current_dp = some dp ∧
       lookupDp ( reinitialize env i).2.1.dps dp = some st ∧
       ( reinitialize env i).2.1.dps = i.dps) := by
  intro env i dp st hflush hsetup hstart hcur h2
  have hd : disconnect env i =
      ({ i with current_dp := none },
       [.dpStop dp]
         ++ stopOtherDps env ((i.dps.map Prod.fst).filter (fun d => d ≠ dp))
         ++ [.rawFlush]) := by
    simp [disconnect, hcur]
  have hsel : select_dp env { i with current_dp := none } dp =
      (.ok st, { i with current_dp := some dp },
       [.rawFlush, .dpSetup dp, .dpStart dp]) := by
    simp [select_dp, select_dp_switch, raw_flush, hflush, debug_port_setup, hsetup,
      select_dp_init, h2, debug_port_start, hstart]
  refine ⟨by rw [hd], ?_, ?_, ?_, ?_⟩ <;>
    simp [ reinitialize, hd, hcur, hsel, h2]

/-- Witness for the amended C3: reinitialising the initialised DPv1
interface succeeds, restores the default DP, and carries its cached state
over unchanged. -/
theorem c3_amended_reinit_state_witness :
    ((disconnect envOk ifaceDPv1).1.current_dp = none ∧
     ( reinitialize envOk ifaceDPv1).1 = .ok () ∧
     ( reinitialize envOk ifaceDPv1).2.1.current_dp = some .Default ∧
     lookupDp ( reinitialize envOk ifaceDPv1).2.1.dps .Default =
       some ⟨.DPv1, .DPv1 ⟨0, 0, 0⟩⟩ ∧
     ( reinitialize envOk ifaceDPv1).2.1.dps = ifaceDPv1.dps) :=
  c3_amended_reinit_state envOk ifaceDPv1 .Default ⟨.DPv1, .DPv1 ⟨0, 0, 0⟩⟩
    rfl rfl rfl rfl (by decide)

end ProbeRs
